import Mathlib

/-!
Verification of the Code-Compiler-and-Executer server against its
natural-language specification.  The definitions below are a shallow
embedding of the C sources: the job queue and its operations come from
src/server/src/queue_manager.c, the session handler from
src/server/src/client_handler.c, the executor from
src/server/src/compiler_service.c, and the wire constants from
src/common/protocol.h and the server headers.  Machine integers are
modelled as Nat / Int with explicit reduction modulo 2 ^ 32 where the C
code wraps; time_t values are Int; fallible external events (fork,
child exit status, wall-clock time) are passed in explicitly.
-/

/- ------------------------------------------------------------------ -/
/- Constants from protocol.h, server.h and compiler.h                  -/
/- ------------------------------------------------------------------ -/

/-- PROTOCOL_MAGIC from src/common/protocol.h line 26. -/
def PROTOCOL_MAGIC : Nat := 0x43434545

/-- MAX_MESSAGE_SIZE from src/common/protocol.h line 27: 16 * 1024 * 1024. -/
def MAX_MESSAGE_SIZE : Nat := 16 * 1024 * 1024

/-- JOB_PRIORITY_LOW from src/server/include/server.h line 40. -/
def JOB_PRIORITY_LOW : Int := 1

/-- JOB_PRIORITY_NORMAL from src/server/include/server.h line 41. -/
def JOB_PRIORITY_NORMAL : Int := 5

/-- JOB_PRIORITY_HIGH from src/server/include/server.h line 42. -/
def JOB_PRIORITY_HIGH : Int := 10

/-- COMPILE_TIMEOUT from src/server/include/server.h line 31 (a config
default; note the executor below uses MAX_COMPILATION_TIME instead). -/
def COMPILE_TIMEOUT : Int := 60

/-- EXECUTION_TIMEOUT from src/server/include/server.h line 32 (a config
default; note the executor below uses MAX_EXECUTION_TIME instead). -/
def EXECUTION_TIMEOUT : Int := 30

/-- MAX_COMPILATION_TIME from src/server/include/compiler.h line 24. -/
def MAX_COMPILATION_TIME : Int := 300

/-- MAX_EXECUTION_TIME from src/server/include/compiler.h line 25. -/
def MAX_EXECUTION_TIME : Int := 60

/-- MAX_COMPLETED_JOB_AGE, the local constant of cleanup_completed_jobs
in src/server/src/queue_manager.c line 369: one hour. -/
def MAX_COMPLETED_JOB_AGE : Int := 3600

/-- Error codes from the error_code_t enum in src/common/protocol.h. -/
def ERROR_INVALID_ARGUMENT : Nat := 1

/-- ERROR_PERMISSION from src/common/protocol.h. -/
def ERROR_PERMISSION : Nat := 2

/-- ERROR_NOT_FOUND from src/common/protocol.h. -/
def ERROR_NOT_FOUND : Nat := 3

/-- ERROR_QUOTA_EXCEEDED from src/common/protocol.h. -/
def ERROR_QUOTA_EXCEEDED : Nat := 4

/-- ERROR_INTERNAL from src/common/protocol.h. -/
def ERROR_INTERNAL : Nat := 6

/- ------------------------------------------------------------------ -/
/- Job data model (job_state_t, job_info_t from server.h)              -/
/- ------------------------------------------------------------------ -/

/-- job_state_t from src/server/include/server.h lines 59-66. -/
inductive JobState where
  | queued
  | running
  | completed
  | failed
  | cancelled
  | timeout
deriving DecidableEq, Repr

/-- execution_mode_t from src/common/protocol.h lines 84-89. -/
inductive ExecMode where
  | compileOnly
  | compileAndRun
  | interpretOnly
  | syntaxCheck
deriving DecidableEq, Repr

/-- job_info_t from src/server/include/server.h lines 91-111.  time_t,
pid_t and int fields are Int; sizes are Nat; fixed char arrays are
String. -/
structure JobInfo where
  job_id : Nat
  client_id : Nat
  correlation_id : Nat
  state : JobState
  language : Nat
  mode : ExecMode
  submit_time : Int
  start_time : Int
  end_time : Int
  process_id : Int
  exit_code : Int
  source_file : String
  output_file : String
  error_file : String
  compiler_args : String
  execution_args : String
  output_size : Nat
  error_size : Nat
  priority : Int
deriving DecidableEq, Repr

/- ------------------------------------------------------------------ -/
/- Queue operations (queue_manager.c).  The linked list of job_node_t   -/
/- is a List JobInfo, head first.                                       -/
/- ------------------------------------------------------------------ -/

/-- add_job, src/server/src/queue_manager.c lines 64-107: the job is
copied into a fresh node appended at the tail of the list (FIFO); the
returned id is the job's own id.  Allocation failure is not modelled. -/
def add_job (q : List JobInfo) (job : JobInfo) : List JobInfo :=
  q ++ [job]

/-- get_next_job, src/server/src/queue_manager.c lines 112-139: pops the
head node unconditionally (no state or priority inspection), removes it
from the list, and hands back a copy of its job. -/
def get_next_job (q : List JobInfo) : Option (JobInfo × List JobInfo) :=
  match q with
  | [] => none
  | job :: rest => some (job, rest)

/-- find_job, src/server/src/queue_manager.c lines 144-158: first node
in the list whose job_id matches, if any. -/
def find_job (q : List JobInfo) (job_id : Nat) : Option JobInfo :=
  match q with
  | [] => none
  | job :: rest => if job.job_id = job_id then some job else find_job rest job_id

/-- update_job_state, src/server/src/queue_manager.c lines 163-183: the
first matching node gets the new state; start_time is stamped on
RUNNING, end_time on COMPLETED, FAILED or CANCELLED (note: not on
TIMEOUT). -/
def update_job_state (q : List JobInfo) (job_id : Nat) (s : JobState) (now : Int) :
    List JobInfo :=
  match q with
  | [] => []
  | job :: rest =>
    if job.job_id = job_id then
      { job with
        state := s,
        start_time := if s = JobState.running then now else job.start_time,
        end_time :=
          if s = JobState.completed ∨ s = JobState.failed ∨ s = JobState.cancelled then
            now
          else job.end_time } :: rest
    else job :: update_job_state rest job_id s now

/-- cancel_job, src/server/src/queue_manager.c lines 188-210: on the
first matching node, a SIGTERM is sent when the recorded pid is
positive and the state is RUNNING (returned as the second component),
and then unconditionally state := CANCELLED and end_time := now. -/
def cancel_job (q : List JobInfo) (job_id : Nat) (now : Int) :
    List JobInfo × Option Int :=
  match q with
  | [] => ([], none)
  | job :: rest =>
    if job.job_id = job_id then
      ({ job with state := JobState.cancelled, end_time := now } :: rest,
       if job.process_id > 0 ∧ job.state = JobState.running then
         some job.process_id
       else none)
    else
      match cancel_job rest job_id now with
      | (rest2, sig) => (job :: rest2, sig)

/-- complete_job, src/server/src/queue_manager.c lines 215-240: the
first matching node becomes COMPLETED when the exit code is 0 and
FAILED otherwise; exit_code and end_time are recorded, and the output
and error file names are copied when non-null. -/
def complete_job (q : List JobInfo) (job_id : Nat) (exit_code : Int) (now : Int)
    (output_file error_file : Option String) : List JobInfo :=
  match q with
  | [] => []
  | job :: rest =>
    if job.job_id = job_id then
      { job with
        state := if exit_code = 0 then JobState.completed else JobState.failed,
        exit_code := exit_code,
        end_time := now,
        output_file := output_file.getD job.output_file,
        error_file := error_file.getD job.error_file } :: rest
    else job :: complete_job rest job_id exit_code now output_file error_file

/-- cleanup_completed_jobs, src/server/src/queue_manager.c lines
367-414: removes every node whose state is COMPLETED, FAILED or
CANCELLED (not TIMEOUT) and whose end_time is more than
MAX_COMPLETED_JOB_AGE seconds in the past. -/
def cleanup_completed_jobs (q : List JobInfo) (now : Int) : List JobInfo :=
  q.filter (fun job =>
    ¬((job.state = JobState.completed ∨ job.state = JobState.failed ∨
       job.state = JobState.cancelled) ∧
      now - job.end_time > MAX_COMPLETED_JOB_AGE))

/- ------------------------------------------------------------------ -/
/- Job id generation (generate_job_id, queue_manager.c lines 337-347)  -/
/- ------------------------------------------------------------------ -/

/-- One call of generate_job_id, src/server/src/queue_manager.c lines
337-347.  The static counter next_id (a uint32_t, initially 1) is the
argument; the result is the returned id together with the new counter:
id = next_id; next_id incremented modulo 2 ^ 32; a wrap to 0 is
replaced by 1. -/
def generate_job_id (next_id : Nat) : Nat × Nat :=
  (next_id,
   if (next_id + 1) % 2 ^ 32 = 0 then 1 else (next_id + 1) % 2 ^ 32)

/-- The counter value of generate_job_id before the n-th call (0-based),
starting from the initial value 1. -/
def jobIdCounter : Nat → Nat
  | 0 => 1
  | n + 1 => (generate_job_id (jobIdCounter n)).2

/-- The id assigned by the n-th call (0-based) of generate_job_id. -/
def jobIdSeq (n : Nat) : Nat := (generate_job_id (jobIdCounter n)).1

/- ------------------------------------------------------------------ -/
/- Executor (compiler_service.c)                                       -/
/- ------------------------------------------------------------------ -/

/-- compile_status_t from src/server/include/compiler.h lines 41-50. -/
inductive CompileStatus where
  | pending
  | compiling
  | compiled
  | running
  | completed
  | failed
  | timeout
  | cancelled
deriving DecidableEq, Repr

/-- How a child process ended, per the waitpid inspection in
execute_command_with_timeout: either WIFEXITED with WEXITSTATUS, or
WIFSIGNALED with WTERMSIG. -/
inductive ChildStatus where
  | exited (code : Nat)
  | signaled (sig : Nat)
deriving DecidableEq, Repr

/-- The environment-supplied outcome of one command launch: whether the
pipes and fork succeeded, the wall-clock seconds the child had run when
the drain loop observed it (time(NULL) - start_time at the decisive
select poll), how the child ended if it was not killed by the timeout,
and the lengths of the drained stdout and stderr captures. -/
structure StepOutcome where
  spawn_ok : Bool
  elapsed : Int
  child : ChildStatus
  out_len : Nat
  err_len : Nat
deriving DecidableEq, Repr

/-- execute_command_with_timeout, src/server/src/compiler_service.c
lines 485-610.  Pipe or fork failure returns -1 without running a
child.  Otherwise, when the elapsed wall-clock time reaches the timeout
(the source comparison at line 557 is time(NULL) - start_time >=
timeout), the child is SIGKILLed and the function returns 124; else the
child is reaped and the result is WEXITSTATUS on normal exit, or 128 +
WTERMSIG when the child died of a signal.  The Bool records whether a
child was actually launched. -/
def execute_command_with_timeout (oc : StepOutcome) (timeout : Int) : Bool × Int :=
  if oc.spawn_ok = false then (false, -1)
  else if oc.elapsed ≥ timeout then (true, 124)
  else
    match oc.child with
    | ChildStatus.exited code => (true, (code : Int))
    | ChildStatus.signaled sig => (true, 128 + (sig : Int))

/-- The parts of compilation_job_t (src/server/include/compiler.h lines
79-123) that the modelled operations read or write.  calloc
initialisation gives zero sizes and exit codes and pending status;
create_compilation_job sets exec_pid to -1. -/
structure CompJob where
  status : CompileStatus
  compile_exit_code : Int
  exec_exit_code : Int
  exec_pid : Int
  source_file : String
  executable_file : String
  output_file : String
  error_file : String
  output_size : Nat
  error_size : Nat
deriving DecidableEq, Repr

/-- The environment facts consumed by one run of the executor for one
job: whether a compiler for the job's language is registered and
available, whether the sandbox directory could be created, whether the
source file is readable, and the outcomes of the compile and the
execute command launches. -/
structure CompileEnv where
  compiler_available : Bool
  sandbox_ok : Bool
  source_ok : Bool
  compile_step : StepOutcome
  exec_step : StepOutcome
deriving DecidableEq, Repr

/-- compile_source_code, src/server/src/compiler_service.c lines
326-411: missing compiler, sandbox failure or unreadable source fail
the job without launching anything; otherwise the compile command runs
under MAX_COMPILATION_TIME, its result is stored in compile_exit_code,
and a zero result yields status COMPILED with the captured sizes while
any other result yields status FAILED with only error_size saved.  The
second component is the C return value; the third is whether a compile
child was launched. -/
def compile_source_code (env : CompileEnv) (j : CompJob) : CompJob × Int × Bool :=
  if env.compiler_available = false then
    ({ j with status := CompileStatus.failed }, -1, false)
  else if env.sandbox_ok = false then
    ({ j with status := CompileStatus.failed }, -1, false)
  else if env.source_ok = false then
    ({ j with status := CompileStatus.failed }, -1, false)
  else
    match execute_command_with_timeout env.compile_step MAX_COMPILATION_TIME with
    | (ran, result) =>
      if result = 0 then
        ({ j with
           status := CompileStatus.compiled,
           compile_exit_code := result,
           output_size := env.compile_step.out_len,
           error_size := env.compile_step.err_len }, 0, ran)
      else
        ({ j with
           status := CompileStatus.failed,
           compile_exit_code := result,
           error_size := env.compile_step.err_len }, -1, ran)

/-- execute_compiled_program, src/server/src/compiler_service.c lines
416-480: refuses jobs whose status is not COMPILED; otherwise the run
command (itself wrapped in a shell timeout of MAX_EXECUTION_TIME) runs
under MAX_EXECUTION_TIME, the result is stored in exec_exit_code, the
captured sizes are added, and status becomes COMPLETED on zero result
and FAILED otherwise. -/
def execute_compiled_program (env : CompileEnv) (j : CompJob) : CompJob × Int × Bool :=
  if j.status ≠ CompileStatus.compiled then (j, -1, false)
  else
    match execute_command_with_timeout env.exec_step MAX_EXECUTION_TIME with
    | (ran, result) =>
      let j2 := { j with
        exec_exit_code := result,
        output_size := j.output_size + env.exec_step.out_len,
        error_size := j.error_size + env.exec_step.err_len }
      if result = 0 then
        ({ j2 with status := CompileStatus.completed }, 0, ran)
      else
        ({ j2 with status := CompileStatus.failed }, -1, ran)

/-- Modelled from the spec: interpret_source_code is declared in
src/server/include/compiler.h line 170 and called by
process_compilation_job, but its implementation is not under src/.
Per sections 4.B and 4.C of the spec, interpreted languages skip the
compile step and the source runs directly under the execution timeout;
the shape mirrors execute_compiled_program without the COMPILED
precondition. -/
def interpret_source_code (env : CompileEnv) (j : CompJob) : CompJob × Int × Bool :=
  if env.compiler_available = false then
    ({ j with status := CompileStatus.failed }, -1, false)
  else if env.sandbox_ok = false then
    ({ j with status := CompileStatus.failed }, -1, false)
  else if env.source_ok = false then
    ({ j with status := CompileStatus.failed }, -1, false)
  else
    match execute_command_with_timeout env.exec_step MAX_EXECUTION_TIME with
    | (ran, result) =>
      let j2 := { j with
        exec_exit_code := result,
        output_size := j.output_size + env.exec_step.out_len,
        error_size := j.error_size + env.exec_step.err_len }
      if result = 0 then
        ({ j2 with status := CompileStatus.completed }, 0, ran)
      else
        ({ j2 with status := CompileStatus.failed }, -1, ran)

/-- Modelled from the spec: syntax_check_only is declared in
src/server/include/compiler.h line 169 and called by
process_compilation_job, but its implementation is not under src/.  It
is modelled as a compile-style step (no artifact is run) under the
compilation timeout. -/
def syntax_check_only (env : CompileEnv) (j : CompJob) : CompJob × Int × Bool :=
  compile_source_code env j

/-- basename followed by the strrchr truncation at the last dot, as in
process_compilation_job lines 272-274 of queue_manager.c. -/
def source_stem (s : String) : String :=
  let base := (s.splitOn "/").getLastD s
  let parts := base.splitOn "."
  if parts.length ≤ 1 then base else String.intercalate "." parts.dropLast

/-- The worker-visible outcome of processing one job, bundling the
scheduler list after the write-backs, the worker's local job copy, the
final compilation record, the C return value, and whether a compile or
an execute/interpret child was launched. -/
structure ProcessResult where
  queue : List JobInfo
  job : JobInfo
  comp : CompJob
  result : Int
  ranCompile : Bool
  ranExec : Bool
deriving DecidableEq, Repr

/-- process_compilation_job, src/server/src/queue_manager.c lines
245-332.  Note that the job argument is the worker's detached copy (the
node was removed by get_next_job), while update_job_state and
complete_job search the shared list by id.  The function marks the job
RUNNING, builds the compilation record with the derived artifact names,
dispatches on the execution mode without ever looking at the job's
state, writes the results back into the copy, and finally calls
complete_job with exit code 0 on success, else with the compile exit
code if non-zero and the exec exit code otherwise. -/
def process_compilation_job (q : List JobInfo) (job : JobInfo) (env : CompileEnv)
    (now : Int) : ProcessResult :=
  let q1 := update_job_state q job.job_id JobState.running now
  let stem := source_stem job.source_file
  let comp0 : CompJob := {
    status := CompileStatus.pending,
    compile_exit_code := 0,
    exec_exit_code := 0,
    exec_pid := -1,
    source_file := job.source_file,
    executable_file := stem ++ "_exe",
    output_file := stem ++ "_output.txt",
    error_file := stem ++ "_error.txt",
    output_size := 0,
    error_size := 0 }
  let step :=
    match job.mode with
    | ExecMode.compileOnly =>
      match compile_source_code env comp0 with
      | (c, r, ranC) => (c, r, ranC, false)
    | ExecMode.compileAndRun =>
      match compile_source_code env comp0 with
      | (c, r, ranC) =>
        if r = 0 then
          match execute_compiled_program env c with
          | (c2, r2, ranE) => (c2, r2, ranC, ranE)
        else (c, r, ranC, false)
    | ExecMode.interpretOnly =>
      match interpret_source_code env comp0 with
      | (c, r, ranE) => (c, r, false, ranE)
    | ExecMode.syntaxCheck =>
      match syntax_check_only env comp0 with
      | (c, r, ranC) => (c, r, ranC, false)
  match step with
  | (comp, result, ranC, ranE) =>
    let job2 := { job with
      exit_code := comp.exec_exit_code,
      process_id := comp.exec_pid,
      output_size := comp.output_size,
      error_size := comp.error_size,
      output_file := comp.output_file,
      error_file := comp.error_file }
    let q2 :=
      if result = 0 then
        complete_job q1 job.job_id 0 now (some comp.output_file) (some comp.error_file)
      else
        complete_job q1 job.job_id
          (if comp.compile_exit_code ≠ 0 then comp.compile_exit_code
           else comp.exec_exit_code)
          now none (some comp.error_file)
    { queue := q2, job := job2, comp := comp, result := result,
      ranCompile := ranC, ranExec := ranE }

/-- One iteration of job_processor_thread, src/server/src/queue_manager.c
lines 22-59: get_next_job removes and returns the head job (whatever
its state); if one exists it is handed to process_compilation_job with
no state check. -/
def job_processor_step (q : List JobInfo) (env : CompileEnv) (now : Int) :
    Option ProcessResult :=
  match get_next_job q with
  | none => none
  | some (job, q2) => some (process_compilation_job q2 job env now)

/- ------------------------------------------------------------------ -/
/- Client session handler (client_handler.c)                           -/
/- ------------------------------------------------------------------ -/

/-- client_state_t from src/server/include/server.h lines 47-54. -/
inductive ClientState where
  | connecting
  | authenticated
  | idle
  | uploading
  | processing
  | disconnecting
deriving DecidableEq, Repr

/-- The per-connection record client_info_t (src/server/include/server.h
lines 71-86), restricted to the fields the handlers read or write. -/
structure ClientInfo where
  client_id : Nat
  state : ClientState
  client_name : String
  client_platform : String
  active_jobs : Nat
deriving DecidableEq, Repr

/-- sizeof the packed hello_payload_t (src/common/protocol.h lines
137-144): 4 uint16 fields, 64 + 32 chars. -/
def sizeof_hello_payload : Nat := 104

/-- sizeof the packed file_upload_start_t (src/common/protocol.h lines
147-153): uint64 + 2 uint32 + 256 chars + uint32. -/
def sizeof_file_upload_start : Nat := 276

/-- sizeof the packed file_chunk_t (src/common/protocol.h lines
156-161): 3 uint32 fields; the chunk bytes follow. -/
def sizeof_file_chunk : Nat := 12

/-- sizeof the packed compile_request_t (src/common/protocol.h lines
164-172): 4 uint16 + 256 + 1024 + 1024 chars. -/
def sizeof_compile_request : Nat := 2312

/-- sizeof a uint32_t job id, the payload of status and result
requests. -/
def sizeof_uint32 : Nat := 4

/-- The payload variants a connected client can send, as the handlers
reinterpret the received bytes (src/common/protocol.h payload structs).
The unknown constructor stands for any message_type outside the
switch of process_client_request. -/
inductive MsgPayload where
  | hello (client_name client_platform : String)
  | uploadStart (file_size : Nat) (chunk_count chunk_size : Nat)
      (filename : String) (file_checksum : Nat)
  | uploadChunk (chunk_id chunk_size chunk_checksum : Nat)
  | uploadEnd
  | compileReq (language : Nat) (mode : ExecMode) (flags : Nat) (priority : Nat)
      (filename compiler_args execution_args : String)
  | statusReq (job_id : Nat)
  | resultReq (job_id : Nat)
  | ping
  | unknown (code : Nat)
deriving DecidableEq, Repr

/-- A received framed message as the handlers see it: the header's
data_length and correlation id plus the payload interpretation. -/
structure ClientMsg where
  data_length : Nat
  correlation_id : Nat
  payload : MsgPayload
deriving DecidableEq, Repr

/-- The response kinds the session handlers emit
(send_client_response / send_client_error in client_handler.c). -/
inductive RespKind where
  | ack
  | pong
  | helloResp
  | compileResp (job_id : Nat) (status : Nat)
  | statusResp (job_id : Nat) (status : JobState) (progress : Nat)
  | resultResp (job_id : Nat) (status : JobState) (exit_code : Int)
  | errorResp (code : Nat)
deriving DecidableEq, Repr

/-- Externally visible side effects of a handler on the per-session
staging area.  A fileWrite would be the persistence of uploaded bytes
under a filename; the modelled handlers are compared against the
effects they actually produce. -/
inductive Effect where
  | fileWrite (path : String) (data : List Nat)
deriving DecidableEq, Repr

/-- The server-global state the session handlers touch: the job list,
the static counter of generate_job_id, and the configured maximum
upload size. -/
structure ServerState where
  queue : List JobInfo
  next_job_id : Nat
  max_file_size : Nat
deriving DecidableEq, Repr

/-- Result of process_client_request: updated server state, updated
session record, the response written back, and the file effects
performed. -/
structure HandleOutcome where
  server : ServerState
  client : ClientInfo
  response : RespKind
  effects : List Effect
deriving DecidableEq, Repr

/-- process_client_request, src/server/src/client_handler.c lines
303-339, together with the individual handlers it dispatches to (lines
344-610).  Notable source behaviours preserved here: no handler checks
that a Hello came first except through the state conditions the
individual handlers impose; handle_file_upload_chunk validates the
declared chunk size against the body length and acknowledges without
storing anything (the storage is an explicit TODO at line 428);
handle_compile_request sets the job priority to JOB_PRIORITY_NORMAL,
ignoring the request's priority field; handle_status_request and
handle_result_request have no session-state precondition. -/
def process_client_request (st : ServerState) (c : ClientInfo) (m : ClientMsg)
    (now : Int) : HandleOutcome :=
  match m.payload with
  | MsgPayload.hello name platform =>
    if m.data_length < sizeof_hello_payload then
      { server := st, client := c,
        response := RespKind.errorResp ERROR_INVALID_ARGUMENT, effects := [] }
    else
      { server := st,
        client := { c with
          client_name := name, client_platform := platform,
          state := ClientState.authenticated },
        response := RespKind.helloResp, effects := [] }
  | MsgPayload.uploadStart file_size _chunk_count _chunk_size _filename _checksum =>
    if c.state ≠ ClientState.authenticated ∧ c.state ≠ ClientState.idle then
      { server := st, client := c,
        response := RespKind.errorResp ERROR_PERMISSION, effects := [] }
    else if m.data_length < sizeof_file_upload_start then
      { server := st, client := c,
        response := RespKind.errorResp ERROR_INVALID_ARGUMENT, effects := [] }
    else if file_size > st.max_file_size then
      { server := st, client := c,
        response := RespKind.errorResp ERROR_QUOTA_EXCEEDED, effects := [] }
    else
      { server := st, client := { c with state := ClientState.uploading },
        response := RespKind.ack, effects := [] }
  | MsgPayload.uploadChunk _chunk_id chunk_size _chunk_checksum =>
    if c.state ≠ ClientState.uploading then
      { server := st, client := c,
        response := RespKind.errorResp ERROR_PERMISSION, effects := [] }
    else if m.data_length < sizeof_file_chunk then
      { server := st, client := c,
        response := RespKind.errorResp ERROR_INVALID_ARGUMENT, effects := [] }
    else if chunk_size ≠ m.data_length - sizeof_file_chunk then
      { server := st, client := c,
        response := RespKind.errorResp ERROR_INVALID_ARGUMENT, effects := [] }
    else
      { server := st, client := c, response := RespKind.ack, effects := [] }
  | MsgPayload.uploadEnd =>
    if c.state ≠ ClientState.uploading then
      { server := st, client := c,
        response := RespKind.errorResp ERROR_PERMISSION, effects := [] }
    else
      { server := st, client := { c with state := ClientState.idle },
        response := RespKind.ack, effects := [] }
  | MsgPayload.compileReq language mode _flags _priority filename cargs eargs =>
    if c.state ≠ ClientState.idle then
      { server := st, client := c,
        response := RespKind.errorResp ERROR_PERMISSION, effects := [] }
    else if m.data_length < sizeof_compile_request then
      { server := st, client := c,
        response := RespKind.errorResp ERROR_INVALID_ARGUMENT, effects := [] }
    else
      match generate_job_id st.next_job_id with
      | (job_id, next2) =>
        let job : JobInfo := {
          job_id := job_id,
          client_id := c.client_id,
          correlation_id := 0,
          state := JobState.queued,
          language := language,
          mode := mode,
          submit_time := now,
          start_time := 0,
          end_time := 0,
          process_id := 0,
          exit_code := 0,
          source_file := filename,
          output_file := "",
          error_file := "",
          compiler_args := cargs,
          execution_args := eargs,
          output_size := 0,
          error_size := 0,
          priority := JOB_PRIORITY_NORMAL }
        { server := { st with queue := add_job st.queue job, next_job_id := next2 },
          client := { c with
            state := ClientState.processing, active_jobs := c.active_jobs + 1 },
          response := RespKind.compileResp job_id 0, effects := [] }
  | MsgPayload.statusReq job_id =>
    if m.data_length < sizeof_uint32 then
      { server := st, client := c,
        response := RespKind.errorResp ERROR_INVALID_ARGUMENT, effects := [] }
    else
      match find_job st.queue job_id with
      | none =>
        { server := st, client := c,
          response := RespKind.errorResp ERROR_NOT_FOUND, effects := [] }
      | some job =>
        if job.client_id ≠ c.client_id then
          { server := st, client := c,
            response := RespKind.errorResp ERROR_PERMISSION, effects := [] }
        else
          { server := st, client := c,
            response := RespKind.statusResp job.job_id job.state
              (if job.state = JobState.completed then 100
               else if job.state = JobState.running then 50 else 0),
            effects := [] }
  | MsgPayload.resultReq job_id =>
    if m.data_length < sizeof_uint32 then
      { server := st, client := c,
        response := RespKind.errorResp ERROR_INVALID_ARGUMENT, effects := [] }
    else
      match find_job st.queue job_id with
      | none =>
        { server := st, client := c,
          response := RespKind.errorResp ERROR_NOT_FOUND, effects := [] }
      | some job =>
        if job.client_id ≠ c.client_id then
          { server := st, client := c,
            response := RespKind.errorResp ERROR_PERMISSION, effects := [] }
        else if job.state ≠ JobState.completed ∧ job.state ≠ JobState.failed then
          { server := st, client := c,
            response := RespKind.errorResp ERROR_PERMISSION, effects := [] }
        else
          { server := st, client := c,
            response := RespKind.resultResp job.job_id job.state job.exit_code,
            effects := [] }
  | MsgPayload.ping =>
    { server := st, client := c, response := RespKind.pong, effects := [] }
  | MsgPayload.unknown _code =>
    { server := st, client := c,
      response := RespKind.errorResp ERROR_INVALID_ARGUMENT, effects := [] }

/- ------------------------------------------------------------------ -/
/- Message framing (handle_client_message, protocol.h)                 -/
/- ------------------------------------------------------------------ -/

/-- message_header_t from src/common/protocol.h lines 120-128, after
header_from_network has restored host byte order. -/
structure MessageHeader where
  magic : Nat
  message_type : Nat
  flags : Nat
  data_length : Nat
  correlation_id : Nat
  timestamp : Nat
  checksum : Nat
deriving DecidableEq, Repr

/-- Modelled from the spec: is_valid_message_type is declared in
src/common/protocol.h line 281 but its implementation is not under
src/.  The recognized kinds are exactly the values of the
message_type_t enum (protocol.h lines 33-68): client requests 1..8,
server responses 100..106, admin kinds 200..209. -/
def is_valid_message_type (t : Nat) : Bool :=
  (1 ≤ t ∧ t ≤ 8) ∨ (100 ≤ t ∧ t ≤ 106) ∨ (200 ≤ t ∧ t ≤ 209)

/-- Modelled from the spec: calculate_header_checksum is declared in
src/common/protocol.h line 263 but its implementation is not under
src/.  Section 4.A describes it as a fast non-cryptographic digest over
the header fields excluding the checksum field itself; it is modelled
as their 32-bit sum. -/
def calculate_header_checksum (h : MessageHeader) : Nat :=
  (h.magic + h.message_type + h.flags + h.data_length + h.correlation_id +
   h.timestamp) % 2 ^ 32

/-- Modelled from the spec: validate_message_header is declared in
src/common/protocol.h line 262 but its implementation is not under
src/.  Section 4.A decode validates the magic, the header checksum,
that the payload length does not exceed 16 MiB, and that the kind is
recognized; 0 (here true) means valid. -/
def validate_message_header (h : MessageHeader) : Bool :=
  h.magic = PROTOCOL_MAGIC ∧
  h.checksum = calculate_header_checksum h ∧
  h.data_length ≤ MAX_MESSAGE_SIZE ∧
  is_valid_message_type h.message_type

/-- What handle_client_message does with a fully received header:
either the connection is torn down (the function returns -1 and the
caller closes the socket), having consumed the given number of payload
bytes from the transport and sent no bytes back, or the declared
payload is read and the message is delivered to
process_client_request. -/
inductive RecvResult where
  | teardown (payload_consumed : Nat) (response_sent : Bool)
  | delivered (payload_consumed : Nat)
deriving DecidableEq, Repr

/-- handle_client_message, src/server/src/client_handler.c lines
228-298, from the point where the 32 header bytes have been received
and byte-swapped: an invalid header (validate_message_header) tears the
connection down with nothing consumed and nothing sent; with a payload
present, a data_length above MAX_MESSAGE_SIZE likewise tears down
before any payload byte is read (line 264); otherwise exactly
data_length payload bytes are consumed and the message is processed. -/
def handle_client_message (h : MessageHeader) : RecvResult :=
  if validate_message_header h = false then RecvResult.teardown 0 false
  else if 0 < h.data_length then
    if h.data_length > MAX_MESSAGE_SIZE then RecvResult.teardown 0 false
    else RecvResult.delivered h.data_length
  else RecvResult.delivered 0

/-- Modelled from the spec: add_client is declared in
src/server/include/server.h line 221 but its implementation is not
under src/.  Per the ClientSession description in section 3 a freshly
accepted session starts in state Connecting with empty name and
platform and no active jobs. -/
def fresh_client (id : Nat) : ClientInfo :=
  { client_id := id, state := ClientState.connecting, client_name := "",
    client_platform := "", active_jobs := 0 }

/- ------------------------------------------------------------------ -/
/- Concrete inputs used by the claim theorems                          -/
/- ------------------------------------------------------------------ -/

/-- A compile-only C job as handle_compile_request builds it, used to
exercise the queue lifecycle. -/
def c1_job : JobInfo :=
  { job_id := 1, client_id := 7, correlation_id := 0, state := JobState.queued,
    language := 1, mode := ExecMode.compileOnly, submit_time := 10,
    start_time := 0, end_time := 0, process_id := 0, exit_code := 0,
    source_file := "a.c", output_file := "", error_file := "",
    compiler_args := "", execution_args := "", output_size := 0,
    error_size := 0, priority := JOB_PRIORITY_NORMAL }

/-- An environment where sandbox, compiler and source are all fine and
the compile child exits 0 after 3 seconds. -/
def ok_env : CompileEnv :=
  { compiler_available := true, sandbox_ok := true, source_ok := true,
    compile_step := { spawn_ok := true, elapsed := 3,
                      child := ChildStatus.exited 0, out_len := 0, err_len := 7 },
    exec_step := { spawn_ok := true, elapsed := 1,
                   child := ChildStatus.exited 0, out_len := 5, err_len := 0 } }

/-- The session that owns c1_job, already past its handshake. -/
def c1_client : ClientInfo :=
  { client_id := 7, state := ClientState.processing, client_name := "t",
    client_platform := "x", active_jobs := 1 }

/-- A queued job with low priority submitted first. -/
def c3_low_job : JobInfo := { c1_job with job_id := 1, priority := JOB_PRIORITY_LOW }

/-- A queued job with high priority submitted second. -/
def c3_high_job : JobInfo := { c1_job with job_id := 2, priority := JOB_PRIORITY_HIGH }

/-- An idle session about to submit a compile request. -/
def c3_client : ClientInfo :=
  { client_id := 7, state := ClientState.idle, client_name := "t",
    client_platform := "x", active_jobs := 0 }

/-- A CompileRequest message whose priority field asks for
JOB_PRIORITY_HIGH (10). -/
def c3_request : ClientMsg :=
  { data_length := sizeof_compile_request, correlation_id := 4,
    payload := MsgPayload.compileReq 1 ExecMode.compileOnly 0 10 "a.c" "" "" }

/-- A job that has already completed (exit 0) and still sits in the
list, one hundred seconds into the run. -/
def c7_done_job : JobInfo :=
  { c1_job with state := JobState.completed, end_time := 100, exit_code := 0 }

/-- A running job whose compile step will be reported on by
complete_job. -/
def c6_running_job : JobInfo :=
  { c1_job with state := JobState.running, start_time := 20 }

/-- A fresh server state with an empty queue, id counter 1 and a 1 MiB
upload cap. -/
def st0 : ServerState := { queue := [], next_job_id := 1, max_file_size := 1048576 }

/-- A well-formed header (correct magic, checksum and kind) whose
declared payload length is 16 MiB + 1. -/
def c10_oversize_header : MessageHeader :=
  { magic := PROTOCOL_MAGIC, message_type := 8, flags := 0,
    data_length := 16777217, correlation_id := 0, timestamp := 0,
    checksum := (PROTOCOL_MAGIC + 8 + 0 + 16777217 + 0 + 0) % 2 ^ 32 }

/-- A well-formed header whose declared payload length is exactly
16 MiB. -/
def c10_exact_header : MessageHeader :=
  { magic := PROTOCOL_MAGIC, message_type := 8, flags := 0,
    data_length := 16777216, correlation_id := 0, timestamp := 0,
    checksum := (PROTOCOL_MAGIC + 8 + 0 + 16777216 + 0 + 0) % 2 ^ 32 }

/-- Step 1 of the S1 upload sequence: the Hello handshake from a fresh
session. -/
def c2_step1 : HandleOutcome :=
  process_client_request st0 (fresh_client 1)
    { data_length := sizeof_hello_payload, correlation_id := 1,
      payload := MsgPayload.hello "t" "x" } 10

/-- Step 2: FileUploadStart declaring a.c, 19 bytes in one chunk. -/
def c2_step2 : HandleOutcome :=
  process_client_request c2_step1.server c2_step1.client
    { data_length := sizeof_file_upload_start, correlation_id := 2,
      payload := MsgPayload.uploadStart 19 1 19 "a.c" 12345 } 11

/-- Step 3: the single 19-byte FileUploadChunk (payload = 12-byte chunk
record followed by 19 data bytes). -/
def c2_step3 : HandleOutcome :=
  process_client_request c2_step2.server c2_step2.client
    { data_length := sizeof_file_chunk + 19, correlation_id := 3,
      payload := MsgPayload.uploadChunk 0 19 777 } 12

/-- Step 4: FileUploadEnd closing the upload. -/
def c2_step4 : HandleOutcome :=
  process_client_request c2_step3.server c2_step3.client
    { data_length := 0, correlation_id := 4, payload := MsgPayload.uploadEnd } 13

/-- A fresh compilation record for the executor timing theorems. -/
def c8_comp : CompJob :=
  { status := CompileStatus.pending, compile_exit_code := 0, exec_exit_code := 0,
    exec_pid := -1, source_file := "a.c", executable_file := "a_exe",
    output_file := "a_output.txt", error_file := "a_error.txt",
    output_size := 0, error_size := 0 }

/-- The same record after a successful compile. -/
def c8_compiled : CompJob := { c8_comp with status := CompileStatus.compiled }

/-- Environment whose compile child exits 0 after 200 seconds. -/
def c8_env_slow_compile : CompileEnv :=
  { ok_env with compile_step :=
    { spawn_ok := true, elapsed := 200, child := ChildStatus.exited 0,
      out_len := 3, err_len := 0 } }

/-- Environment whose compile child is still running at 300 seconds. -/
def c8_env_compile_at_cap : CompileEnv :=
  { ok_env with compile_step :=
    { spawn_ok := true, elapsed := 300, child := ChildStatus.exited 0,
      out_len := 0, err_len := 0 } }

/-- Environment whose executed program exits 0 after 45 seconds. -/
def c8_env_slow_exec : CompileEnv :=
  { ok_env with exec_step :=
    { spawn_ok := true, elapsed := 45, child := ChildStatus.exited 0,
      out_len := 2, err_len := 0 } }

/-- Environment whose executed program is still running at 60 seconds. -/
def c8_env_exec_at_cap : CompileEnv :=
  { ok_env with exec_step :=
    { spawn_ok := true, elapsed := 60, child := ChildStatus.exited 0,
      out_len := 0, err_len := 0 } }

/- ------------------------------------------------------------------ -/
/- Helper lemmas                                                       -/
/- ------------------------------------------------------------------ -/

/-- Submitting a batch of jobs one by one appends them in order. -/
theorem foldl_add_job (q : List JobInfo) (js : List JobInfo) :
    List.foldl add_job q js = q ++ js := by
  induction js generalizing q with
  | nil => simp
  | cons j js ih => simp [List.foldl_cons, add_job, ih]

/-- complete_job rewrites exactly the node find_job sees: the first
node with the given id acquires COMPLETED or FAILED according to the
exit code, the code itself, the end time and the file names. -/
theorem find_job_complete_job (q : List JobInfo) (id : Nat) (code now : Int)
    (o e : Option String) (j : JobInfo) (h : find_job q id = some j) :
    find_job (complete_job q id code now o e) id =
      some { j with
        state := if code = 0 then JobState.completed else JobState.failed,
        exit_code := code, end_time := now,
        output_file := o.getD j.output_file,
        error_file := e.getD j.error_file } := by
  induction q with
  | nil => simp [find_job] at h
  | cons a rest ih =>
    by_cases ha : a.job_id = id
    · simp [find_job, ha] at h
      subst h
      simp [complete_job, find_job, ha]
    · simp [find_job, ha] at h
      simp [complete_job, find_job, ha, ih h]

/-- cancel_job leaves the whole list untouched and signals nothing when
no node carries the requested id. -/
theorem find_job_cancel_job_none (q : List JobInfo) (id : Nat) (now : Int)
    (h : find_job q id = none) : cancel_job q id now = (q, none) := by
  induction q with
  | nil => simp [cancel_job]
  | cons a rest ih =>
    by_cases ha : a.job_id = id
    · simp [find_job, ha] at h
    · simp [find_job, ha] at h
      simp [cancel_job, ha, ih h]

/-- cancel_job rewrites exactly the node find_job sees: it becomes
CANCELLED with a fresh end time (all other fields kept), and a SIGTERM
is reported exactly when that node was RUNNING with a positive pid. -/
theorem find_job_cancel_job_some (q : List JobInfo) (id : Nat) (now : Int)
    (j : JobInfo) (h : find_job q id = some j) :
    find_job (cancel_job q id now).1 id =
      some { j with state := JobState.cancelled, end_time := now } ∧
    (cancel_job q id now).2 =
      (if j.process_id > 0 ∧ j.state = JobState.running then some j.process_id
       else none) := by
  induction q with
  | nil => simp [find_job] at h
  | cons a rest ih =>
    by_cases ha : a.job_id = id
    · simp [find_job, ha] at h
      subst h
      simp [cancel_job, find_job, ha]
    · simp [find_job, ha] at h
      obtain ⟨h1, h2⟩ := ih h
      simp [cancel_job, find_job, ha, h1, h2]

/-- Closed form of the generate_job_id counter: before the n-th call it
holds n mod (2 ^ 32 - 1) + 1. -/
theorem jobIdCounter_closed (n : Nat) :
    jobIdCounter n = n % (2 ^ 32 - 1) + 1 := by
  induction n with
  | zero => simp [jobIdCounter]
  | succ n ih =>
    rw [jobIdCounter, ih, generate_job_id]
    have hr : n % (2 ^ 32 - 1) < 2 ^ 32 - 1 := Nat.mod_lt _ (by norm_num)
    have hsucc : (n + 1) % (2 ^ 32 - 1) = (n % (2 ^ 32 - 1) + 1) % (2 ^ 32 - 1) := by
      conv_lhs => rw [Nat.add_mod]
      norm_num
    rw [hsucc]
    by_cases hc : n % (2 ^ 32 - 1) + 1 = 2 ^ 32 - 1
    · have h1 : n % (2 ^ 32 - 1) + 1 + 1 = 2 ^ 32 := by omega
      rw [h1, hc]
      simp
    · have h2 : (n % (2 ^ 32 - 1) + 1 + 1) % 2 ^ 32 = n % (2 ^ 32 - 1) + 1 + 1 :=
        Nat.mod_eq_of_lt (by omega)
      have h3 : (n % (2 ^ 32 - 1) + 1) % (2 ^ 32 - 1) = n % (2 ^ 32 - 1) + 1 :=
        Nat.mod_eq_of_lt (by omega)
      rw [h2, h3]
      have h4 : n % (2 ^ 32 - 1) + 1 + 1 ≠ 0 := by omega
      simp [h4]

/-- Closed form of the id sequence: the n-th call of generate_job_id
returns n mod (2 ^ 32 - 1) + 1. -/
theorem jobIdSeq_closed (n : Nat) : jobIdSeq n = n % (2 ^ 32 - 1) + 1 := by
  rw [jobIdSeq, generate_job_id, jobIdCounter_closed]

/- ------------------------------------------------------------------ -/
/- Claim theorems                                                      -/
/- ------------------------------------------------------------------ -/

/-- Claim C1, code evaluated at the failing input: a submitted job is
findable only while it sits in the queue; get_next_job removes its node,
so find_job answers none for the job while the worker runs it, the
write-backs of process_compilation_job leave the (now empty) list
untouched, and a StatusRequest for the job is answered with
Error NotFound instead of its status. -/
theorem c1_job_vanishes_after_dequeue :
    find_job (add_job [] c1_job) 1 = some c1_job ∧
    get_next_job (add_job [] c1_job) = some (c1_job, []) ∧
    find_job ([] : List JobInfo) 1 = none ∧
    (process_compilation_job [] c1_job ok_env 50).queue = [] ∧
    (process_client_request st0 c1_client
        { data_length := 4, correlation_id := 9,
          payload := MsgPayload.statusReq 1 } 60).response =
      RespKind.errorResp ERROR_NOT_FOUND := by
  refine ⟨by decide, by decide, by decide, ?_, by decide⟩
  decide

/-- Claim C2, code evaluated at the failing input: the successful upload
sequence Hello, FileUploadStart(a.c, 19 bytes), FileUploadChunk,
FileUploadEnd is acknowledged step by step and ends with the session
Idle, yet no handler performs any file write: the uploaded bytes are
never persisted under the declared filename (the storage is an explicit
TODO in handle_file_upload_chunk). -/
theorem c2_upload_persists_nothing :
    c2_step1.response = RespKind.helloResp ∧
    c2_step2.response = RespKind.ack ∧
    c2_step3.response = RespKind.ack ∧
    c2_step4.response = RespKind.ack ∧
    c2_step4.client.state = ClientState.idle ∧
    c2_step1.effects = [] ∧ c2_step2.effects = [] ∧
    c2_step3.effects = [] ∧ c2_step4.effects = [] := by
  decide

/-- Claim C3 counterexample: with a low-priority job submitted first and
a high-priority job second, get_next_job dequeues the low-priority one
first; and a CompileRequest asking for priority 10 produces a queued job
whose priority is JOB_PRIORITY_NORMAL (5), so the request's priority
field is not honoured. -/
theorem c3_priority_ignored_counterexample :
    get_next_job (add_job (add_job [] c3_low_job) c3_high_job) =
      some (c3_low_job, [c3_high_job]) ∧
    c3_low_job.priority < c3_high_job.priority ∧
    ((process_client_request st0 c3_client c3_request 20).server.queue.map
        JobInfo.priority = [JOB_PRIORITY_NORMAL]) ∧
    JOB_PRIORITY_NORMAL ≠ (10 : Int) := by
  decide

/-- Claim C3 (amended): jobs are dequeued in pure submission (FIFO)
order whatever their priorities, since get_next_job always pops the
head of the list jobs were appended to, and every job built by
handle_compile_request carries priority JOB_PRIORITY_NORMAL with the
request's priority field ignored. -/
theorem c3_fifo_and_fixed_priority :
    (∀ (j : JobInfo) (js : List JobInfo),
      get_next_job (List.foldl add_job [] (j :: js)) = some (j, js)) ∧
    (∀ (st : ServerState) (c : ClientInfo) (len cid lang : Nat) (mo : ExecMode)
        (fl pr : Nat) (f a e : String) (now : Int),
      c.state = ClientState.idle → sizeof_compile_request ≤ len →
      (process_client_request st c
          { data_length := len, correlation_id := cid,
            payload := MsgPayload.compileReq lang mo fl pr f a e } now).server.queue =
        add_job st.queue
          { job_id := (generate_job_id st.next_job_id).1, client_id := c.client_id,
            correlation_id := 0, state := JobState.queued, language := lang,
            mode := mo, submit_time := now, start_time := 0, end_time := 0,
            process_id := 0, exit_code := 0, source_file := f, output_file := "",
            error_file := "", compiler_args := a, execution_args := e,
            output_size := 0, error_size := 0,
            priority := JOB_PRIORITY_NORMAL }) := by
  constructor
  · intro j js
    rw [foldl_add_job]
    simp [get_next_job]
  · intro st c len cid lang mo fl pr f a e now hidle hlen
    simp [process_client_request, hidle, Nat.not_lt.mpr hlen, generate_job_id]

/-- Witness for c3_fifo_and_fixed_priority at concrete inputs. -/
theorem c3_fifo_and_fixed_priority_witness :
    get_next_job (List.foldl add_job [] [c3_low_job, c3_high_job]) =
      some (c3_low_job, [c3_high_job]) ∧
    (process_client_request st0 c3_client c3_request 20).server.queue =
      add_job st0.queue
        { job_id := (generate_job_id st0.next_job_id).1, client_id := c3_client.client_id,
          correlation_id := 0, state := JobState.queued, language := 1,
          mode := ExecMode.compileOnly, submit_time := 20, start_time := 0,
          end_time := 0, process_id := 0, exit_code := 0, source_file := "a.c",
          output_file := "", error_file := "", compiler_args := "",
          execution_args := "", output_size := 0, error_size := 0,
          priority := JOB_PRIORITY_NORMAL } :=
  ⟨c3_fifo_and_fixed_priority.1 c3_low_job [c3_high_job],
   c3_fifo_and_fixed_priority.2 st0 c3_client sizeof_compile_request 4 1
     ExecMode.compileOnly 0 10 "a.c" "" "" 20 (by decide) (by decide)⟩

/-- Claim C4, code evaluated at the failing input: cancelling the queued
job does mark its node CANCELLED, but the worker iteration afterwards
still pops that node (get_next_job inspects no state) and
process_compilation_job launches the compile child for it: the
cancelled job is executed anyway. -/
theorem c4_cancelled_job_still_executed :
    (cancel_job (add_job [] c1_job) 1 30).1 =
      [{ c1_job with state := JobState.cancelled, end_time := 30 }] ∧
    (cancel_job (add_job [] c1_job) 1 30).2 = none ∧
    (job_processor_step (cancel_job (add_job [] c1_job) 1 30).1 ok_env 40).map
        (fun pr => (pr.job.job_id, pr.job.state, pr.ranCompile)) =
      some (1, JobState.cancelled, true) := by
  refine ⟨by decide, by decide, ?_⟩
  decide

/-- Claim C5 counterexample: a Ping as the very first message of a
fresh (Connecting) session is served with Pong, the session state is
unchanged, and no Error InvalidArgument is produced: the claimed
Hello-first gate does not exist. -/
theorem c5_ping_before_hello_served :
    (process_client_request st0 (fresh_client 3)
        { data_length := 0, correlation_id := 5, payload := MsgPayload.ping } 15).response =
      RespKind.pong ∧
    (process_client_request st0 (fresh_client 3)
        { data_length := 0, correlation_id := 5, payload := MsgPayload.ping } 15).client.state =
      ClientState.connecting := by
  decide

/-- Claim C5 (amended): there is no Hello-first gate.  On a session
still in Connecting, any message is dispatched to its ordinary handler:
the session state afterwards is Connecting or (after a Hello)
Authenticated, never Disconnecting; Ping is answered with Pong; a
CompileRequest fails with Error Permission only because the session is
not Idle; and only an unrecognized kind yields Error InvalidArgument. -/
theorem c5_no_hello_first_gate (st : ServerState) (c : ClientInfo) (m : ClientMsg)
    (now : Int) (hc : c.state = ClientState.connecting) :
    ((process_client_request st c m now).client.state = ClientState.connecting ∨
     (process_client_request st c m now).client.state = ClientState.authenticated) ∧
    (m.payload = MsgPayload.ping →
      (process_client_request st c m now).response = RespKind.pong) ∧
    (∀ lang mo fl pr f a e, m.payload = MsgPayload.compileReq lang mo fl pr f a e →
      (process_client_request st c m now).response =
        RespKind.errorResp ERROR_PERMISSION) ∧
    (∀ k, m.payload = MsgPayload.unknown k →
      (process_client_request st c m now).response =
        RespKind.errorResp ERROR_INVALID_ARGUMENT) := by
  obtain ⟨len, cid, p⟩ := m
  refine ⟨?_, ?_, ?_, ?_⟩
  · cases p <;> simp only [process_client_request] <;> (repeat' split) <;>
      simp_all
  · intro hp
    subst hp
    simp [process_client_request]
  · intro lang mo fl pr f a e hp
    subst hp
    simp [process_client_request, hc]
  · intro k hp
    subst hp
    simp [process_client_request]

/-- Witness for c5_no_hello_first_gate on a fresh session at concrete
messages. -/
theorem c5_no_hello_first_gate_witness :
    ((process_client_request st0 (fresh_client 2)
        { data_length := 0, correlation_id := 6, payload := MsgPayload.ping } 16).client.state =
          ClientState.connecting ∨
      (process_client_request st0 (fresh_client 2)
        { data_length := 0, correlation_id := 6, payload := MsgPayload.ping } 16).client.state =
          ClientState.authenticated) ∧
    (process_client_request st0 (fresh_client 2)
        { data_length := 0, correlation_id := 6, payload := MsgPayload.ping } 16).response =
      RespKind.pong ∧
    (process_client_request st0 (fresh_client 2)
        { data_length := sizeof_compile_request, correlation_id := 7,
          payload := MsgPayload.compileReq 1 ExecMode.compileOnly 0 10 "a.c" "" "" } 16).response =
      RespKind.errorResp ERROR_PERMISSION ∧
    (process_client_request st0 (fresh_client 2)
        { data_length := 0, correlation_id := 8, payload := MsgPayload.unknown 42 } 16).response =
      RespKind.errorResp ERROR_INVALID_ARGUMENT :=
  ⟨(c5_no_hello_first_gate st0 (fresh_client 2)
      { data_length := 0, correlation_id := 6, payload := MsgPayload.ping } 16 rfl).1,
   (c5_no_hello_first_gate st0 (fresh_client 2)
      { data_length := 0, correlation_id := 6, payload := MsgPayload.ping } 16 rfl).2.1 rfl,
   (c5_no_hello_first_gate st0 (fresh_client 2)
      { data_length := sizeof_compile_request, correlation_id := 7,
        payload := MsgPayload.compileReq 1 ExecMode.compileOnly 0 10 "a.c" "" "" } 16 rfl).2.2.1
     1 ExecMode.compileOnly 0 10 "a.c" "" "" rfl,
   (c5_no_hello_first_gate st0 (fresh_client 2)
      { data_length := 0, correlation_id := 8, payload := MsgPayload.unknown 42 } 16 rfl).2.2.2
     42 rfl⟩

/-- Claim C6 counterexample: a child still running when the wall clock
reaches the 30-second cap (even exactly) is reported with exit code
124, not with the 128 + signal convention (128 + 9 = 137 for the
SIGKILL actually sent), and complete_job records the job as Failed, so
the terminal state Timeout is never reached. -/
theorem c6_timeout_gives_124_and_failed :
    execute_command_with_timeout
      { spawn_ok := true, elapsed := 30, child := ChildStatus.exited 0,
        out_len := 0, err_len := 0 } 30 = (true, 124) ∧
    execute_command_with_timeout
      { spawn_ok := true, elapsed := 31, child := ChildStatus.signaled 9,
        out_len := 0, err_len := 0 } 30 = (true, 124) ∧
    (124 : Int) ≠ 128 + 9 ∧
    Option.map JobInfo.state
        (find_job (complete_job [c6_running_job] 1 124 99 none (some "a_error.txt")) 1) =
      some JobState.failed ∧
    JobState.failed ≠ JobState.timeout := by
  decide

/-- Claim C6 (amended): a compile or execute step whose wall clock
reaches or exceeds its cap (so a step of exactly the cap is already
late) is killed and reported with exit code 124; 128 + signal is used
only for a child terminated by a signal before the cap; and
complete_job maps the non-zero code 124 to the terminal state Failed,
never Timeout. -/
theorem c6_timeout_behavior :
    (∀ (oc : StepOutcome) (t : Int), oc.spawn_ok = true → oc.elapsed ≥ t →
      execute_command_with_timeout oc t = (true, 124)) ∧
    (∀ (oc : StepOutcome) (t : Int) (s : Nat), oc.spawn_ok = true →
      oc.elapsed < t → oc.child = ChildStatus.signaled s →
      execute_command_with_timeout oc t = (true, 128 + (s : Int))) ∧
    (∀ (q : List JobInfo) (id : Nat) (now : Int) (o e : Option String) (j : JobInfo),
      find_job q id = some j →
      Option.map JobInfo.state (find_job (complete_job q id 124 now o e) id) =
        some JobState.failed) := by
  refine ⟨?_, ?_, ?_⟩
  · intro oc t h1 h2
    simp [execute_command_with_timeout, h1, h2]
  · intro oc t s h1 h2 h3
    simp [execute_command_with_timeout, h1, Int.not_le.mpr h2, h3]
  · intro q id now o e j h
    rw [find_job_complete_job q id 124 now o e j h]
    norm_num

/-- Witness for c6_timeout_behavior at concrete inputs. -/
theorem c6_timeout_behavior_witness :
    execute_command_with_timeout
      { spawn_ok := true, elapsed := 61, child := ChildStatus.exited 0,
        out_len := 0, err_len := 0 } 60 = (true, 124) ∧
    execute_command_with_timeout
      { spawn_ok := true, elapsed := 2, child := ChildStatus.signaled 11,
        out_len := 0, err_len := 0 } 60 = (true, 128 + (11 : Int)) ∧
    Option.map JobInfo.state
        (find_job (complete_job [c6_running_job] 1 124 99 none none) 1) =
      some JobState.failed :=
  ⟨c6_timeout_behavior.1
     { spawn_ok := true, elapsed := 61, child := ChildStatus.exited 0,
       out_len := 0, err_len := 0 } 60 (by decide) (by decide),
   c6_timeout_behavior.2.1
     { spawn_ok := true, elapsed := 2, child := ChildStatus.signaled 11,
       out_len := 0, err_len := 0 } 60 11 (by decide) (by decide) (by decide),
   c6_timeout_behavior.2.2 [c6_running_job] 1 99 none none c6_running_job (by decide)⟩

/-- Claim C7 counterexample: cancelling a job that is already terminal
(Completed, end_time 100) while it still sits in the list overwrites
its state to Cancelled and refreshes its end time to 200: not a
no-op. -/
theorem c7_cancel_overwrites_terminal :
    (cancel_job [c7_done_job] 1 200).1 =
      [{ c7_done_job with state := JobState.cancelled, end_time := 200 }] ∧
    c7_done_job.state = JobState.completed ∧
    c7_done_job.end_time = 100 ∧
    JobState.cancelled ≠ JobState.completed ∧
    (200 : Int) ≠ 100 := by
  decide

/-- Claim C7 (amended): cancel_job raises no error in any case; it is a
no-op exactly when no node carries the requested id; on a terminal (in
particular any non-Running) job still in the list it sends no signal
but overwrites the state to Cancelled and refreshes end_time, keeping
every other field. -/
theorem c7_cancel_terminal_behavior :
    (∀ (q : List JobInfo) (id : Nat) (now : Int), find_job q id = none →
      cancel_job q id now = (q, none)) ∧
    (∀ (q : List JobInfo) (id : Nat) (now : Int) (j : JobInfo),
      find_job q id = some j → j.state ≠ JobState.running →
      (cancel_job q id now).2 = none ∧
      find_job (cancel_job q id now).1 id =
        some { j with state := JobState.cancelled, end_time := now }) := by
  refine ⟨?_, ?_⟩
  · intro q id now h
    exact find_job_cancel_job_none q id now h
  · intro q id now j h hterm
    obtain ⟨h1, h2⟩ := find_job_cancel_job_some q id now j h
    refine ⟨?_, h1⟩
    rw [h2]
    simp [hterm]

/-- Witness for c7_cancel_terminal_behavior at concrete inputs. -/
theorem c7_cancel_terminal_behavior_witness :
    cancel_job [] 5 7 = ([], none) ∧
    ((cancel_job [c7_done_job] 1 200).2 = none ∧
     find_job (cancel_job [c7_done_job] 1 200).1 1 =
       some { c7_done_job with state := JobState.cancelled, end_time := 200 }) :=
  ⟨c7_cancel_terminal_behavior.1 [] 5 7 (by decide),
   c7_cancel_terminal_behavior.2 [c7_done_job] 1 200 c7_done_job (by decide) (by decide)⟩

/-- Claim C8 counterexample: a compile child that exits 0 after 200
seconds succeeds (impossible under a 60-second cap) while one still
running at 300 seconds is cut off with 124; an executed program that
exits 0 after 45 seconds succeeds (impossible under a 30-second cap)
while one still running at 60 seconds is cut off: the executor's caps
are MAX_COMPILATION_TIME = 300 and MAX_EXECUTION_TIME = 60, not the
claimed 60 and 30. -/
theorem c8_executor_caps_counterexample :
    (compile_source_code c8_env_slow_compile c8_comp).2.1 = 0 ∧
    (compile_source_code c8_env_compile_at_cap c8_comp).1.compile_exit_code = 124 ∧
    (execute_compiled_program c8_env_slow_exec c8_compiled).2.1 = 0 ∧
    (execute_compiled_program c8_env_exec_at_cap c8_compiled).1.exec_exit_code = 124 ∧
    MAX_COMPILATION_TIME ≠ COMPILE_TIMEOUT ∧
    MAX_EXECUTION_TIME ≠ EXECUTION_TIMEOUT := by
  decide

/-- Claim C8 (amended): the compile step enforces the hard wall-clock
cap MAX_COMPILATION_TIME = 300 seconds and the execute step the hard
cap MAX_EXECUTION_TIME = 60 seconds, with no retries: at or beyond the
cap the recorded exit code is 124, and below it the child's own exit
status is recorded.  The 60-second and 30-second figures exist only as
the COMPILE_TIMEOUT and EXECUTION_TIMEOUT configuration defaults of
server.h, which the executor does not consult. -/
theorem c8_executor_caps :
    MAX_COMPILATION_TIME = 300 ∧ MAX_EXECUTION_TIME = 60 ∧
    (∀ (env : CompileEnv) (j : CompJob),
      env.compiler_available = true → env.sandbox_ok = true → env.source_ok = true →
      env.compile_step.spawn_ok = true →
      env.compile_step.elapsed ≥ MAX_COMPILATION_TIME →
      (compile_source_code env j).1.compile_exit_code = 124) ∧
    (∀ (env : CompileEnv) (j : CompJob) (cde : Nat),
      env.compiler_available = true → env.sandbox_ok = true → env.source_ok = true →
      env.compile_step.spawn_ok = true →
      env.compile_step.elapsed < MAX_COMPILATION_TIME →
      env.compile_step.child = ChildStatus.exited cde →
      (compile_source_code env j).1.compile_exit_code = (cde : Int)) ∧
    (∀ (env : CompileEnv) (j : CompJob),
      j.status = CompileStatus.compiled → env.exec_step.spawn_ok = true →
      env.exec_step.elapsed ≥ MAX_EXECUTION_TIME →
      (execute_compiled_program env j).1.exec_exit_code = 124) := by
  refine ⟨rfl, rfl, ?_, ?_, ?_⟩
  · intro env j h1 h2 h3 h4 h5
    simp [compile_source_code, execute_command_with_timeout, h1, h2, h3, h4, h5]
  · intro env j cde h1 h2 h3 h4 h5 h6
    by_cases hz : (cde : Int) = 0 <;>
      simp [compile_source_code, execute_command_with_timeout, h1, h2, h3, h4,
        Int.not_le.mpr h5, h6, hz]
  · intro env j h1 h2 h3
    simp [execute_compiled_program, execute_command_with_timeout, h1, h2, h3]

/-- Witness for c8_executor_caps at concrete inputs. -/
theorem c8_executor_caps_witness :
    (compile_source_code c8_env_compile_at_cap c8_comp).1.compile_exit_code = 124 ∧
    (compile_source_code c8_env_slow_compile c8_comp).1.compile_exit_code = (0 : Int) ∧
    (execute_compiled_program c8_env_exec_at_cap c8_compiled).1.exec_exit_code = 124 :=
  ⟨c8_executor_caps.2.2.1 c8_env_compile_at_cap c8_comp
     (by decide) (by decide) (by decide) (by decide) (by decide),
   c8_executor_caps.2.2.2.1 c8_env_slow_compile c8_comp 0
     (by decide) (by decide) (by decide) (by decide) (by decide) (by decide),
   c8_executor_caps.2.2.2.2 c8_env_exec_at_cap c8_compiled (by decide) (by decide)
     (by decide)⟩

/-- Claim C9 counterexample: the very first call of generate_job_id
returns 1 and so does call number 4294967295 (0-based), after the
counter has wrapped: the id 1 is assigned to two different jobs, so ids
are reassigned and call 4294967295 is not strictly greater than its
predecessors. -/
theorem c9_id_reassigned_after_wrap :
    jobIdSeq 0 = 1 ∧ jobIdSeq 4294967295 = 1 ∧
    jobIdSeq 4294967295 = jobIdSeq 0 ∧ (0 : Nat) ≠ 4294967295 := by
  have h0 : jobIdSeq 0 = 1 := by
    rw [jobIdSeq_closed]
    norm_num
  have h1 : jobIdSeq 4294967295 = 1 := by
    rw [jobIdSeq_closed]
    norm_num
  exact ⟨h0, h1, by rw [h0, h1], by norm_num⟩

/-- Claim C9 (amended): the n-th assigned job id equals
n mod (2 ^ 32 - 1) + 1: it is never zero; among the first 2 ^ 32 - 1
assignments ids are exactly 1, 2, 3, ... so each is strictly greater
than all previously assigned ids and none is reassigned; from
assignment number 2 ^ 32 - 1 on the counter has wrapped (skipping
zero) and earlier ids are reassigned. -/
theorem c9_job_id_wrap_behavior (n : Nat) :
    jobIdSeq n = n % (2 ^ 32 - 1) + 1 ∧
    jobIdSeq n ≠ 0 ∧
    (n < 2 ^ 32 - 1 → jobIdSeq n = n + 1) ∧
    (∀ m, m < n → n < 2 ^ 32 - 1 → jobIdSeq m < jobIdSeq n) := by
  refine ⟨jobIdSeq_closed n, ?_, ?_, ?_⟩
  · rw [jobIdSeq_closed]
    omega
  · intro hn
    rw [jobIdSeq_closed, Nat.mod_eq_of_lt hn]
  · intro m hm hn
    rw [jobIdSeq_closed, jobIdSeq_closed, Nat.mod_eq_of_lt hn,
      Nat.mod_eq_of_lt (lt_trans hm hn)]
    omega

/-- Witness for c9_job_id_wrap_behavior at concrete inputs. -/
theorem c9_job_id_wrap_behavior_witness :
    jobIdSeq 5 ≠ 0 ∧ jobIdSeq 5 = 6 ∧ jobIdSeq 3 < jobIdSeq 5 :=
  ⟨(c9_job_id_wrap_behavior 5).2.1,
   (c9_job_id_wrap_behavior 5).2.2.1 (by decide),
   (c9_job_id_wrap_behavior 5).2.2.2 3 (by decide) (by decide)⟩

/-- Claim C10: a received header whose declared payload length exceeds
16 MiB makes handle_client_message tear the connection down having
consumed zero payload bytes from the transport and having sent no
response, while a header that is otherwise valid and declares exactly
16 MiB passes the size check and has its payload read. -/
theorem c10_oversize_payload_teardown (h : MessageHeader) :
    (MAX_MESSAGE_SIZE < h.data_length →
      handle_client_message h = RecvResult.teardown 0 false) ∧
    (h.data_length = MAX_MESSAGE_SIZE → h.magic = PROTOCOL_MAGIC →
      h.checksum = calculate_header_checksum h →
      is_valid_message_type h.message_type = true →
      handle_client_message h = RecvResult.delivered MAX_MESSAGE_SIZE) := by
  constructor
  · intro hlt
    have hv : validate_message_header h = false := by
      simp only [validate_message_header, decide_eq_false_iff_not]
      intro hp
      exact absurd hp.2.2.1 (by omega)
    simp [handle_client_message, hv]
  · intro he hm hc hk
    have hv : validate_message_header h = true := by
      simp only [validate_message_header, decide_eq_true_eq]
      exact ⟨hm, hc, by omega, hk⟩
    have hpos : 0 < h.data_length := by
      rw [he]
      norm_num [MAX_MESSAGE_SIZE]
    have hnot : ¬h.data_length > MAX_MESSAGE_SIZE := by omega
    simp [handle_client_message, hv, hpos, hnot, he]
    omega

/-- Witness for c10_oversize_payload_teardown at concrete headers. -/
theorem c10_oversize_payload_teardown_witness :
    handle_client_message c10_oversize_header = RecvResult.teardown 0 false ∧
    handle_client_message c10_exact_header = RecvResult.delivered MAX_MESSAGE_SIZE :=
  ⟨(c10_oversize_payload_teardown c10_oversize_header).1 (by decide),
   (c10_oversize_payload_teardown c10_exact_header).2 (by decide) (by decide)
     (by decide) (by decide)⟩
